import Mathlib

/-!
Shallow embedding of `src/printer.py` (repository tucho235/printer_sonoff).

The program is a sequence of I/O calls glued by conditionals.  We model the
outside world (file system, HTTP transport, subprocess) as an explicit
environment record passed to each routine, and each routine as a pure
function from that environment to a result record describing what the
routine did (whether it sent a switch command, the marker file afterwards,
the boolean return value).

Conventions:
- an HTTP response body is abstracted to the two fields the program reads:
  the `error` field (`Option Int`, `none` when absent) and the nested
  `data.switch` field (`Option String`);
- a transport outcome `Option (Resp × Nat)` is `none` when the request
  raises `requests.RequestException`, otherwise the parsed body and the
  HTTP status code;
- the marker file (`LOCK_FILE`) is `Option String`: `none` when absent,
  `some s` when it exists with content `s`;
- possible I/O failures the code catches (`IOError` on read/write,
  `OSError` on remove, `SubprocessError`) are environment flags.
-/

/-- Abstraction of a parsed JSON response body: the only fields the
program ever reads are `error` and `data.switch`. -/
structure Resp where
  error : Option Int
  dataSwitch : Option String
deriving DecidableEq, Repr

/-- Model of `make_printer_request` (printer.py lines 21-32): posts JSON and returns
`(response.json(), response.status_code)`; on `requests.RequestException`
returns `({}, 500)`.  The transport outcome is the argument: `none` models
a raised request exception, `some (body, status)` a delivered response. -/
def makePrinterRequest (transport : Option (Resp × Nat)) : Resp × Nat :=
  match transport with
  | some result => result
  | none => (⟨none, none⟩, 500)

/-- Python `str.strip()` whitespace set (ASCII): space, tab, newline,
carriage return, vertical tab, form feed. -/
def isPyWhitespace (c : Char) : Bool :=
  c = ' ' || c = '\t' || c = '\n' || c = '\r' || c.toNat = 11 || c.toNat = 12

/-- Python `str.strip()`: drop whitespace from both ends. -/
def pyStrip (s : String) : String :=
  String.mk (((s.data.dropWhile isPyWhitespace).reverse.dropWhile isPyWhitespace).reverse)

/-- Python `str.isdigit()` (restricted to ASCII): true iff the string is
nonempty and every character is a decimal digit. -/
def pyIsDigit (s : String) : Bool :=
  !s.isEmpty && s.data.all Char.isDigit

/-- Python `int(value)` for a decimal-digit string. -/
def parseDigits (s : String) : Nat :=
  s.data.foldl (fun n c => n * 10 + (c.toNat - 48)) 0

/-- Model of `get_pending_print_jobs` (printer.py lines 34-41): runs `lpstat -o`
and returns `result.stdout.strip()`; on `subprocess.SubprocessError`
returns `""`.  The argument is the subprocess outcome: `none` models a
raised `SubprocessError`, `some out` a run whose stdout is `out`. -/
def getPendingPrintJobs (queue : Option String) : String :=
  match queue with
  | some out => pyStrip out
  | none => ""

/-- Environment of one `check_and_turn_off` invocation. -/
structure OffEnv where
  /-- Value of `int(time.time())` at the start of the call. -/
  currentTime : Int
  /-- The marker file `LOCK_FILE`: `none` absent, `some s` content `s`. -/
  lockFile : Option String
  /-- Whether opening/reading the marker file succeeds (false models the
  caught `IOError`). -/
  readOk : Bool
  /-- Outcome of the `lpstat -o` subprocess (`none` = `SubprocessError`). -/
  queue : Option String
  /-- Transport outcome of the `switch: off` request. -/
  offTransport : Option (Resp × Nat)
  /-- Whether `os.remove(LOCK_FILE)` succeeds on an existing file (false
  models the caught `OSError`). -/
  removeOk : Bool
deriving DecidableEq, Repr

/-- Observable outcome of one `check_and_turn_off` invocation. -/
structure OffResult where
  /-- Whether the `switch: off` request was made. -/
  offSent : Bool
  /-- The marker file after the call. -/
  lockAfter : Option String
deriving DecidableEq, Repr

/-- First stage of `should_turn_off` in `check_and_turn_off` (printer.py
lines 48-62): starts true; if the marker file exists it is read (an
`IOError` sets it false), and a nonempty all-digit stripped content whose
value exceeds `current_time - 60` sets it false. -/
def markerCheckAllows (e : OffEnv) : Bool :=
  match e.lockFile with
  | none => true
  | some content =>
    if e.readOk then
      let value := pyStrip content
      if !value.isEmpty && pyIsDigit value then
        if (parseDigits value : Int) > e.currentTime - 60 then false else true
      else true
    else false

/-- Second stage of `should_turn_off` (printer.py lines 64-69): a nonempty
stripped queue output sets it false. -/
def shouldTurnOff (e : OffEnv) : Bool :=
  markerCheckAllows e && (getPendingPrintJobs e.queue == "")

/-- Model of `check_and_turn_off` (printer.py lines 45-83): if `should_turn_off`
survived both checks, the off command is sent and, on status 200 with
`error == 0`, the marker file is removed (`os.remove` failure, including
on an absent file, is caught and leaves the file system as it was). -/
def checkAndTurnOff (e : OffEnv) : OffResult :=
  if shouldTurnOff e then
    let result := makePrinterRequest e.offTransport
    if result.2 == 200 && result.1.error == some 0 then
      if e.lockFile.isSome && e.removeOk then
        ⟨true, none⟩
      else
        ⟨true, e.lockFile⟩
    else
      ⟨true, e.lockFile⟩
  else
    ⟨false, e.lockFile⟩

/-- Model of `write_timestamp_file` (printer.py lines 85-91): writes
`str(get_current_timestamp())` to the file; an `IOError` is caught and
leaves the file as it was.  Returns the file state after the call. -/
def writeTimestampFile (writeOk : Bool) (now : Int) (old : Option String) :
    Option String :=
  if writeOk then some (toString now) else old

/-- Environment of one `turn_on_printer` invocation. -/
structure OnEnv where
  /-- Value of `int(time.time())` during the call. -/
  currentTime : Int
  /-- The marker file `LOCK_FILE` before the call. -/
  lockFile : Option String
  /-- Transport outcome of the `info` (status query) request. -/
  infoTransport : Option (Resp × Nat)
  /-- Transport outcome of the `switch: on` request. -/
  onTransport : Option (Resp × Nat)
  /-- Whether writing the marker file succeeds (false models the caught
  `IOError` in `write_timestamp_file`). -/
  writeOk : Bool
deriving DecidableEq, Repr

/-- Observable outcome of one `turn_on_printer` invocation. -/
structure OnResult where
  /-- The boolean return value. -/
  result : Bool
  /-- Whether the `switch: on` request was made. -/
  onSent : Bool
  /-- The marker file after the call. -/
  lockAfter : Option String
deriving DecidableEq, Repr

/-- Model of `turn_on_printer` (printer.py lines 94-124), translated line by line:
query `info`; a non-200 status returns False; on a 200 response, if
`data.switch == "off"` send `switch: on` and on status 200 with
`error == 0` write the marker and return True (otherwise return False);
if `data.switch` is anything else, write the marker and return True. -/
def turnOnPrinter (e : OnEnv) : OnResult :=
  let info := makePrinterRequest e.infoTransport
  if info.2 ≠ 200 then
    ⟨false, false, e.lockFile⟩
  else
    if info.1.dataSwitch == some "off" then
      let onResp := makePrinterRequest e.onTransport
      if onResp.2 == 200 && onResp.1.error == some 0 then
        ⟨true, true, writeTimestampFile e.writeOk e.currentTime e.lockFile⟩
      else
        ⟨false, true, e.lockFile⟩
    else
      ⟨true, false, writeTimestampFile e.writeOk e.currentTime e.lockFile⟩

/-- A device response pair counts as success exactly when the status is
200 and the body's `error` field equals 0 (printer.py lines 76 and 111). -/
def respOk (p : Resp × Nat) : Bool :=
  p.2 == 200 && p.1.error == some 0

/-- The names bound at module level by the import statements of
printer.py lines 2-8 (`import os, time, json, subprocess, requests`,
`from datetime import datetime`, `from typing import Tuple, Optional`).
Note `sys` is not among them. -/
def importedNames : List String :=
  ["os", "time", "json", "subprocess", "requests", "datetime", "Tuple", "Optional"]

/-- Outcome of running the script as `__main__`. -/
inductive MainOutcome where
  /-- Case where `sys.exit(code)` was called after printing usage. -/
  | exited (code : Nat)
  /-- Case where `turn_on_printer()` was invoked. -/
  | ranTurnOn
  /-- Case where `check_and_turn_off()` was invoked. -/
  | ranTurnOff
  /-- An unhandled `NameError` for the given name (the interpreter then
  exits with code 1). -/
  | nameError (n : String)
deriving DecidableEq, Repr

/-- The `__main__` block (printer.py lines 127-140).  Its first statement
evaluates `len(sys.argv)`; since `sys` is never imported
(`importedNames`), this raises an unhandled `NameError` before any
dispatch can happen.  Were `sys` bound, the block would exit 1 unless
exactly one positional argument is given, dispatch `"on"` to
`turn_on_printer` and `"off"` to `check_and_turn_off`, and exit 1 on any
other value. -/
def pyMainDispatch (argv : List String) : MainOutcome :=
  if !(importedNames.contains "sys") then
    MainOutcome.nameError "sys"
  else if argv.length ≠ 2 then
    MainOutcome.exited 1
  else
    match argv.get? 1 with
    | some "on" => MainOutcome.ranTurnOn
    | some "off" => MainOutcome.ranTurnOff
    | _ => MainOutcome.exited 1

/-- Written from the SPEC's words for claim C1 (not from the code): the
marker file is absent or holds a timestamp strictly older than 60 seconds
relative to the current time, and the queue inspection returns no pending
entries. -/
def specC1OffCondition (e : OffEnv) : Bool :=
  (match e.lockFile with
   | none => true
   | some s => decide (e.currentTime - (parseDigits (pyStrip s) : Int) > 60))
  && (getPendingPrintJobs e.queue == "")

/-- Helper: whether the off command was sent depends only on the two-stage
`should_turn_off` computation, not on the device response. -/
lemma checkAndTurnOff_offSent (e : OffEnv) :
    (checkAndTurnOff e).offSent = shouldTurnOff e := by
  unfold checkAndTurnOff
  cases h : shouldTurnOff e
  · simp [h]
  · simp only [h, if_true, reduceIte]
    repeat' split
    all_goals rfl

/-- Helper: when the off command's effective response is not a success,
`check_and_turn_off` leaves the marker file exactly as it was. -/
lemma checkAndTurnOff_lockAfter_of_not_ok (e : OffEnv)
    (hfail : respOk (makePrinterRequest e.offTransport) = false) :
    (checkAndTurnOff e).lockAfter = e.lockFile := by
  unfold checkAndTurnOff
  unfold respOk at hfail
  split
  · simp only [hfail, Bool.false_eq_true, if_false, reduceIte]
  · rfl

/-- Helper: a string made only of Python whitespace strips to the empty
string. -/
lemma pyStrip_all_whitespace (out : String)
    (h : ∀ c ∈ out.data, isPyWhitespace c = true) : pyStrip out = "" := by
  unfold pyStrip
  rw [List.dropWhile_eq_nil_iff.mpr h]
  rfl

/-- Claim C1 (counterexample): the claim's "timestamp older than 60
seconds" is strict, but the code blocks only while
`last_print_time > current_time - 60`.  At current time 1000 with marker
content "940" the timestamp is exactly 60 seconds old — not *older* than
60 seconds, so the claim's condition is false — yet the code sends the
off command. -/
theorem off_at_age_sixty_contradicts_strict_spec :
    (checkAndTurnOff ⟨1000, some "940", true, some "", some (⟨some 0, none⟩, 200), true⟩).offSent
        = true
    ∧ specC1OffCondition ⟨1000, some "940", true, some "", some (⟨some 0, none⟩, 200), true⟩
        = false := by decide

/-- Claim C1 (amended): assuming the marker file, when present, reads
successfully and its stripped content is a decimal-digit string,
`check_and_turn_off` sends the off command if and only if the marker file
is absent or holds a timestamp at least 60 seconds old
(`timestamp ≤ current_time - 60`), and the stripped print-queue output is
empty (so any non-empty queue output blocks power-off). -/
theorem offSent_iff_marker_stale_and_queue_empty (e : OffEnv)
    (hr : e.readOk = true)
    (hwf : ∀ s, e.lockFile = some s → pyIsDigit (pyStrip s) = true) :
    (checkAndTurnOff e).offSent = true ↔
      ((∀ s, e.lockFile = some s →
          (parseDigits (pyStrip s) : Int) ≤ e.currentTime - 60)
        ∧ getPendingPrintJobs e.queue = "") := by
  rw [checkAndTurnOff_offSent]
  unfold shouldTurnOff markerCheckAllows
  cases h : e.lockFile with
  | none => simp
  | some s =>
    have hd := hwf s h
    have hne : (!(pyStrip s).isEmpty) = true := by
      unfold pyIsDigit at hd
      exact (Bool.and_eq_true _ _ |>.mp hd).1
    simp only [hr, hne, hd, Bool.and_self, if_true, reduceIte]
    constructor
    · intro hb
      rw [Bool.and_eq_true] at hb
      obtain ⟨h1, h2⟩ := hb
      refine ⟨?_, ?_⟩
      · intro s' hs'
        injection hs' with hss
        subst hss
        by_contra hgt
        push_neg at hgt
        rw [if_pos hgt] at h1
        exact Bool.false_ne_true h1
      · exact beq_iff_eq.mp h2
    · rintro ⟨h1, h2⟩
      have hle := h1 s rfl
      rw [Bool.and_eq_true]
      refine ⟨?_, beq_iff_eq.mpr h2⟩
      rw [if_neg (by omega)]

/-- Claim C1 (witness): at current time 1000 with a marker holding 900
(100 seconds old) and an empty queue, the off command is sent. -/
theorem offSent_iff_marker_stale_and_queue_empty_witness :
    (checkAndTurnOff ⟨1000, some "900", true, some "", some (⟨some 0, none⟩, 200), true⟩).offSent
      = true :=
  (offSent_iff_marker_stale_and_queue_empty
      ⟨1000, some "900", true, some "", some (⟨some 0, none⟩, 200), true⟩ rfl
      (fun s hs => by cases hs; decide)).mpr
    ⟨fun s hs => by cases hs; decide, rfl⟩

/-- Claim C2: assuming the file writes/removals themselves succeed, every
`turn_on_printer` invocation that returns True leaves the marker file
holding the current integer Unix timestamp, and whenever
`check_and_turn_off` sent the off command and its response was status 200
with error field 0, the marker file no longer exists afterwards. -/
theorem marker_written_on_success_and_deleted_on_off_success :
    (∀ e : OnEnv, e.writeOk = true → (turnOnPrinter e).result = true →
        (turnOnPrinter e).lockAfter = some (toString e.currentTime))
    ∧ (∀ e : OffEnv, e.removeOk = true →
        (checkAndTurnOff e).offSent = true →
        respOk (makePrinterRequest e.offTransport) = true →
        (checkAndTurnOff e).lockAfter = none) := by
  constructor
  · intro e hw hres
    simp only [turnOnPrinter] at hres ⊢
    split_ifs at hres ⊢ <;> simp_all [writeTimestampFile]
  · intro e hrm hsent hok
    rw [checkAndTurnOff_offSent] at hsent
    unfold respOk at hok
    unfold checkAndTurnOff
    rw [if_pos hsent]
    simp only [hok, if_true, reduceIte]
    cases hl : e.lockFile <;> simp [hl, hrm]

/-- Claim C2 (witness): a successful turn-on writes marker content "1000"
at current time 1000, and a successful turn-off removes the marker. -/
theorem marker_lifecycle_witness :
    (turnOnPrinter ⟨1000, none, some (⟨some 0, some "off"⟩, 200),
        some (⟨some 0, none⟩, 200), true⟩).lockAfter = some "1000"
    ∧ (checkAndTurnOff ⟨1000, some "900", true, some "",
        some (⟨some 0, none⟩, 200), true⟩).lockAfter = none :=
  ⟨marker_written_on_success_and_deleted_on_off_success.1
      ⟨1000, none, some (⟨some 0, some "off"⟩, 200), some (⟨some 0, none⟩, 200), true⟩
      rfl (by decide),
   marker_written_on_success_and_deleted_on_off_success.2
      ⟨1000, some "900", true, some "", some (⟨some 0, none⟩, 200), true⟩
      rfl (by decide) (by decide)⟩

/-- Claim C3 (counterexample): the status query in `turn_on_printer` does
NOT treat a nonzero `error` field as failure.  A 200 info response with
`error = 5` and `data.switch = "on"` takes the success path: the routine
returns True and writes the marker file (a state change), contradicting
the claim that every interaction with a nonzero error field takes its
failure path with no state change. -/
theorem info_error_field_ignored_counterexample :
    (makePrinterRequest (some (⟨some 5, some "on"⟩, 200))).1.error = some 5
    ∧ turnOnPrinter ⟨1000, none, some (⟨some 5, some "on"⟩, 200), none, true⟩ =
        ⟨true, false, some "1000"⟩ := by decide

/-- Claim C3 (amended): for the two switch commands, any non-200 status or
any `error` field other than 0 is treated as failure with no marker
change (and, for the on command, a False return); the status query in
`turn_on_printer`, however, treats only a non-200 status as failure, and
its outcome is entirely independent of the info response's `error`
field. -/
theorem device_failure_handling_per_interaction :
    (∀ e : OffEnv, respOk (makePrinterRequest e.offTransport) = false →
        (checkAndTurnOff e).lockAfter = e.lockFile)
    ∧ (∀ e : OnEnv, (makePrinterRequest e.infoTransport).2 ≠ 200 →
        turnOnPrinter e = ⟨false, false, e.lockFile⟩)
    ∧ (∀ e : OnEnv, (makePrinterRequest e.infoTransport).2 = 200 →
        (makePrinterRequest e.infoTransport).1.dataSwitch = some "off" →
        respOk (makePrinterRequest e.onTransport) = false →
        turnOnPrinter e = ⟨false, true, e.lockFile⟩)
    ∧ (∀ (ct : Int) (lf : Option String) (sw : Option String) (st : Nat)
        (err1 err2 : Option Int) (ot : Option (Resp × Nat)) (w : Bool),
        turnOnPrinter ⟨ct, lf, some (⟨err1, sw⟩, st), ot, w⟩ =
          turnOnPrinter ⟨ct, lf, some (⟨err2, sw⟩, st), ot, w⟩) := by
  refine ⟨?_, ?_, ?_, ?_⟩
  · exact fun e hfail => checkAndTurnOff_lockAfter_of_not_ok e hfail
  · intro e hne
    simp only [turnOnPrinter]
    rw [if_pos hne]
  · intro e h200 hsw hfail
    unfold respOk at hfail
    simp only [turnOnPrinter]
    rw [if_neg (not_not_intro h200)]
    simp only [hsw, beq_self_eq_true, if_true, reduceIte, hfail, Bool.false_eq_true, if_false]
  · intro ct lf sw st err1 err2 ot w
    simp only [turnOnPrinter, makePrinterRequest]

/-- Claim C3 (witness): a failed off response (error 1) preserves the
absent marker; a 404 info response returns False with no switch command;
a failed on response (error 1) returns False and preserves the marker. -/
theorem device_failure_handling_per_interaction_witness :
    (checkAndTurnOff ⟨1000, none, true, some "", some (⟨some 1, none⟩, 200), true⟩).lockAfter
        = none
    ∧ turnOnPrinter ⟨1000, some "5", some (⟨some 0, none⟩, 404), none, true⟩
        = ⟨false, false, some "5"⟩
    ∧ turnOnPrinter ⟨1000, some "5", some (⟨some 0, some "off"⟩, 200),
        some (⟨some 1, none⟩, 200), true⟩ = ⟨false, true, some "5"⟩ :=
  ⟨device_failure_handling_per_interaction.1 _ (by decide),
   device_failure_handling_per_interaction.2.1 _ (by decide),
   device_failure_handling_per_interaction.2.2.1 _ rfl rfl (by decide)⟩

/-- Claim C4: `make_printer_request` returns the pair (empty body, 500)
for a raised request exception, and otherwise returns the parsed body
together with the actual HTTP status code. -/
theorem makePrinterRequest_transport_failure_and_success :
    makePrinterRequest none = (⟨none, none⟩, 500)
    ∧ ∀ (r : Resp) (st : Nat), makePrinterRequest (some (r, st)) = (r, st) :=
  ⟨rfl, fun _ _ => rfl⟩

/-- Claim C5: when the status query succeeds with status 200 and the
reported switch state is not "off", `turn_on_printer` sends no switch
command, rewrites the marker file with the current timestamp (assuming
the write itself succeeds), and returns True. -/
theorem already_on_path_refreshes_marker (e : OnEnv)
    (h200 : (makePrinterRequest e.infoTransport).2 = 200)
    (hsw : (makePrinterRequest e.infoTransport).1.dataSwitch ≠ some "off")
    (hw : e.writeOk = true) :
    turnOnPrinter e = ⟨true, false, some (toString e.currentTime)⟩ := by
  unfold turnOnPrinter
  rw [if_neg (not_not_intro h200)]
  have hb : ((makePrinterRequest e.infoTransport).1.dataSwitch == some "off") = false :=
    beq_eq_false_iff_ne.mpr hsw
  simp only [hb, Bool.false_eq_true, if_false, reduceIte, writeTimestampFile, hw, if_true]

/-- Claim C5 (witness): a 200 info response with switch "on" yields True,
no switch command, and marker content "1000" at current time 1000. -/
theorem already_on_path_refreshes_marker_witness :
    turnOnPrinter ⟨1000, none, some (⟨some 0, some "on"⟩, 200), none, true⟩
      = ⟨true, false, some "1000"⟩ :=
  already_on_path_refreshes_marker
    ⟨1000, none, some (⟨some 0, some "on"⟩, 200), none, true⟩ rfl (by decide) rfl

/-- Claim C6 (counterexample): a subprocess failure does not leave state
unchanged.  With the marker absent, a failed queue inspection
(`queue = none`) and a device accepting the off command, the off command
IS sent — while the same invocation with the queue inspection succeeding
and reporting a job does not send it.  The caught subprocess failure is
what unblocked the power-off. -/
theorem subprocess_failure_unblocks_power_off :
    (checkAndTurnOff ⟨1000, none, true, none, some (⟨some 0, none⟩, 200), true⟩).offSent = true
    ∧ (checkAndTurnOff ⟨1000, none, true, some "job 1", some (⟨some 0, none⟩, 200), true⟩).offSent
        = false := by decide

/-- Claim C6 (amended): every modelled failure is caught and never
propagated.  A subprocess failure behaves exactly like an empty print
queue (so it does not block power-off); a transport failure of the off
command leaves the marker unchanged; a marker read failure blocks
power-off and leaves the marker unchanged; a transport failure of the
info query returns False with no switch command and no marker change; a
transport failure of the on command (after a 200 info response reporting
"off") returns False with no marker change; and a marker write failure
leaves the marker unchanged. -/
theorem caught_failures_behavior :
    (∀ (ct : Int) (lf : Option String) (ro : Bool) (ot : Option (Resp × Nat)) (rok : Bool),
        checkAndTurnOff ⟨ct, lf, ro, none, ot, rok⟩ = checkAndTurnOff ⟨ct, lf, ro, some "", ot, rok⟩)
    ∧ (∀ e : OffEnv, e.offTransport = none → (checkAndTurnOff e).lockAfter = e.lockFile)
    ∧ (∀ (ct : Int) (s : String) (q : Option String) (ot : Option (Resp × Nat)) (rok : Bool),
        checkAndTurnOff ⟨ct, some s, false, q, ot, rok⟩ = ⟨false, some s⟩)
    ∧ (∀ e : OnEnv, e.infoTransport = none → turnOnPrinter e = ⟨false, false, e.lockFile⟩)
    ∧ (∀ e : OnEnv, (makePrinterRequest e.infoTransport).2 = 200 →
        (makePrinterRequest e.infoTransport).1.dataSwitch = some "off" →
        e.onTransport = none → turnOnPrinter e = ⟨false, true, e.lockFile⟩)
    ∧ (∀ e : OnEnv, e.writeOk = false → (turnOnPrinter e).lockAfter = e.lockFile) := by
  refine ⟨?_, ?_, ?_, ?_, ?_, ?_⟩
  · intro ct lf ro ot rok
    rfl
  · intro e ht
    apply checkAndTurnOff_lockAfter_of_not_ok
    rw [ht]
    rfl
  · intro ct s q ot rok
    unfold checkAndTurnOff shouldTurnOff markerCheckAllows
    simp
  · intro e ht
    simp only [turnOnPrinter, ht, makePrinterRequest]
    rfl
  · intro e h200 hsw ht
    simp only [turnOnPrinter]
    rw [if_neg (not_not_intro h200), ht]
    simp only [hsw, beq_self_eq_true, if_true, reduceIte]
    rfl
  · intro e hw
    simp only [turnOnPrinter]
    split_ifs <;> simp [writeTimestampFile, hw]

/-- Claim C6 (witness): concrete instances of the amended conjuncts with
hypotheses: off-transport failure, info-transport failure, on-transport
failure, and write failure all leave the marker "900" unchanged. -/
theorem caught_failures_behavior_witness :
    (checkAndTurnOff ⟨1000, some "900", true, some "", none, true⟩).lockAfter = some "900"
    ∧ turnOnPrinter ⟨1000, some "900", none, none, true⟩ = ⟨false, false, some "900"⟩
    ∧ turnOnPrinter ⟨1000, some "900", some (⟨some 0, some "off"⟩, 200), none, true⟩
        = ⟨false, true, some "900"⟩
    ∧ (turnOnPrinter ⟨1000, some "900", some (⟨some 0, some "off"⟩, 200),
        some (⟨some 0, none⟩, 200), false⟩).lockAfter = some "900" :=
  ⟨caught_failures_behavior.2.1 _ rfl,
   caught_failures_behavior.2.2.2.1 _ rfl,
   caught_failures_behavior.2.2.2.2.1 _ rfl rfl rfl,
   caught_failures_behavior.2.2.2.2.2 _ rfl⟩

/-- Claim C7: if the device response to a switch command is a failure
(non-200 status or error field not 0), the marker file is neither deleted
by `check_and_turn_off` nor written by `turn_on_printer`: its existence
and content are unchanged, and the failed turn-on returns False. -/
theorem failed_switch_response_preserves_marker :
    (∀ e : OffEnv, respOk (makePrinterRequest e.offTransport) = false →
        (checkAndTurnOff e).lockAfter = e.lockFile)
    ∧ (∀ e : OnEnv, (makePrinterRequest e.infoTransport).2 = 200 →
        (makePrinterRequest e.infoTransport).1.dataSwitch = some "off" →
        respOk (makePrinterRequest e.onTransport) = false →
        (turnOnPrinter e).lockAfter = e.lockFile ∧ (turnOnPrinter e).result = false) := by
  constructor
  · exact fun e hfail => checkAndTurnOff_lockAfter_of_not_ok e hfail
  · intro e h200 hsw hfail
    unfold respOk at hfail
    simp only [turnOnPrinter]
    rw [if_neg (not_not_intro h200)]
    simp [hsw, hfail]

/-- Claim C7 (witness): a response with error field 2 leaves marker "900"
in place for both routines, and the turn-on returns False. -/
theorem failed_switch_response_preserves_marker_witness :
    (checkAndTurnOff ⟨1000, some "900", true, some "", some (⟨some 2, none⟩, 200), true⟩).lockAfter
        = some "900"
    ∧ (turnOnPrinter ⟨1000, some "900", some (⟨some 0, some "off"⟩, 200),
        some (⟨some 2, none⟩, 200), true⟩).lockAfter = some "900"
    ∧ (turnOnPrinter ⟨1000, some "900", some (⟨some 0, some "off"⟩, 200),
        some (⟨some 2, none⟩, 200), true⟩).result = false :=
  ⟨failed_switch_response_preserves_marker.1 _ (by decide),
   (failed_switch_response_preserves_marker.2
      ⟨1000, some "900", some (⟨some 0, some "off"⟩, 200), some (⟨some 2, none⟩, 200), true⟩
      rfl rfl (by decide)).1,
   (failed_switch_response_preserves_marker.2
      ⟨1000, some "900", some (⟨some 0, some "off"⟩, 200), some (⟨some 2, none⟩, 200), true⟩
      rfl rfl (by decide)).2⟩

/-- Claim C8: the `__main__` block's first statement evaluates `sys.argv`,
but `sys` is never imported (see `importedNames`), so every invocation —
including the documented `on` and `off` arguments — raises an unhandled
NameError instead of dispatching to the routines. -/
theorem main_raises_name_lookup_failure :
    pyMainDispatch ["printer.py", "on"] = MainOutcome.nameError "sys"
    ∧ pyMainDispatch ["printer.py", "off"] = MainOutcome.nameError "sys"
    ∧ ∀ argv : List String, pyMainDispatch argv = MainOutcome.nameError "sys" :=
  ⟨rfl, rfl, fun _ => rfl⟩

/-- Claim C9: a marker file whose stripped content is empty or not a
digit string leaves the first `should_turn_off` stage true, so the
malformed marker blocks power-off exactly as little as an absent one: the
off command is sent in the same environments. -/
theorem malformed_marker_treated_as_absent
    (ct : Int) (s : String) (q : Option String) (ot : Option (Resp × Nat)) (rok : Bool)
    (hmal : pyStrip s = "" ∨ pyIsDigit (pyStrip s) = false) :
    (checkAndTurnOff ⟨ct, some s, true, q, ot, rok⟩).offSent =
      (checkAndTurnOff ⟨ct, none, true, q, ot, rok⟩).offSent := by
  rw [checkAndTurnOff_offSent, checkAndTurnOff_offSent]
  unfold shouldTurnOff markerCheckAllows
  have h0 : ("" : String).isEmpty = true := rfl
  rcases hmal with hmal | hmal
  · simp [hmal, h0]
  · simp [hmal]

/-- Claim C9 (witness): marker content "12a" behaves like an absent
marker. -/
theorem malformed_marker_treated_as_absent_witness :
    (checkAndTurnOff ⟨1000, some "12a", true, some "", some (⟨some 0, none⟩, 200), true⟩).offSent
      = (checkAndTurnOff ⟨1000, none, true, some "", some (⟨some 0, none⟩, 200), true⟩).offSent :=
  malformed_marker_treated_as_absent 1000 "12a" (some "") (some (⟨some 0, none⟩, 200)) true
    (Or.inr (by decide))

/-- Claim C10: a queue command output made only of whitespace strips to
the empty string in `get_pending_print_jobs`, and `check_and_turn_off`
behaves on it exactly as on empty output — it does not block
power-off. -/
theorem whitespace_only_queue_output_does_not_block
    (out : String) (h : ∀ c ∈ out.data, isPyWhitespace c = true) :
    getPendingPrintJobs (some out) = ""
    ∧ ∀ (ct : Int) (lf : Option String) (ro : Bool) (ot : Option (Resp × Nat)) (rok : Bool),
        checkAndTurnOff ⟨ct, lf, ro, some out, ot, rok⟩ =
          checkAndTurnOff ⟨ct, lf, ro, some "", ot, rok⟩ := by
  have hs : pyStrip out = "" := pyStrip_all_whitespace out h
  have hq : getPendingPrintJobs (some out) = "" := by
    simp [getPendingPrintJobs, hs]
  refine ⟨hq, ?_⟩
  intro ct lf ro ot rok
  have hq2 : getPendingPrintJobs (some "") = "" := rfl
  unfold checkAndTurnOff shouldTurnOff
  simp only [hq, hq2]
  rfl

/-- Claim C10 (witness): the output consisting of a newline and a space
strips to empty and does not change the outcome. -/
theorem whitespace_only_queue_output_does_not_block_witness :
    getPendingPrintJobs (some "\n ") = ""
    ∧ checkAndTurnOff ⟨1000, none, true, some "\n ", some (⟨some 0, none⟩, 200), true⟩
        = checkAndTurnOff ⟨1000, none, true, some "", some (⟨some 0, none⟩, 200), true⟩ :=
  ⟨(whitespace_only_queue_output_does_not_block "\n " (by decide)).1,
   (whitespace_only_queue_output_does_not_block "\n " (by decide)).2
      1000 none true (some (⟨some 0, none⟩, 200)) true⟩
